import Mathlib

/-!
Verification of the patient data-access layer of the MediConnect repository
(`src/services/patientsService.ts`, types from the patient-types module).

Modelling conventions of the shallow embedding:
* JavaScript strings are Lean `String`s; `toLowerCase` is modelled per character
  (ASCII range, matching `Char.toLower`), and `s.includes(sub)` is modelled by a
  contiguous-run search over the character lists.
* Timestamps (ISO strings produced by `new Date().toISOString()` and compared via
  `new Date(s).getTime()`) are modelled as abstract `Nat` instants; a field typed
  `created_at?: string` becomes `Option Nat`.
* `crypto.randomUUID()` and `new Date()` are external effects: the generated id and
  the current instant enter the model as explicit arguments of the operations, and
  the documented contract of the UUID generator (non-empty, never-repeating output)
  appears as a hypothesis where a claim depends on it.
* Optional object fields (`field?: T | null`) become `Option`; in update payloads
  (TypeScript `Partial`), an extra `Option` layer distinguishes an absent property
  from a present one, since JavaScript spread only overwrites present properties.
* The module-level mutable array `MOCK_DB` becomes an explicit `List Patient`
  threaded through the operations; the `throw` in `updatePatient` becomes `Option`.
-/

/-- Patient entity, mirroring the `Patient` interface of the patient-types module
field for field (same names, same optionality). Numeric scores are modelled as
`Int`, `communication_preferences` as an association list. -/
structure Patient where
  id : Option String := none
  photo_url : Option String := none
  full_name : String
  social_name : Option String := none
  cpf : String
  rg : Option String := none
  other_document_type : Option String := none
  other_document_number : Option String := none
  gender : Option String := none
  birth_date : String
  ethnicity : Option String := none
  race : Option String := none
  nationality : Option String := none
  birth_city : Option String := none
  birth_state : Option String := none
  profession : Option String := none
  marital_status : Option String := none
  mother_name : Option String := none
  father_name : Option String := none
  responsible_name : Option String := none
  responsible_cpf : Option String := none
  legacy_code : Option String := none
  email : Option String := none
  phone_primary : String
  phone_secondary : Option String := none
  address_zip_code : Option String := none
  address_street : Option String := none
  address_number : Option String := none
  address_complement : Option String := none
  address_district : Option String := none
  address_city : Option String := none
  address_state : Option String := none
  observations : Option String := none
  behavior_score : Option Int := none
  absenteeism_risk_score : Option Int := none
  communication_preferences : Option (List (String × Bool)) := none
  created_at : Option Nat := none
  updated_at : Option Nat := none
deriving Repr, DecidableEq

/-- Create payload: `PatientInsert = Omit<Patient, "id" | "created_at" | "updated_at">`. -/
structure PatientInsert where
  photo_url : Option String := none
  full_name : String
  social_name : Option String := none
  cpf : String
  rg : Option String := none
  other_document_type : Option String := none
  other_document_number : Option String := none
  gender : Option String := none
  birth_date : String
  ethnicity : Option String := none
  race : Option String := none
  nationality : Option String := none
  birth_city : Option String := none
  birth_state : Option String := none
  profession : Option String := none
  marital_status : Option String := none
  mother_name : Option String := none
  father_name : Option String := none
  responsible_name : Option String := none
  responsible_cpf : Option String := none
  legacy_code : Option String := none
  email : Option String := none
  phone_primary : String
  phone_secondary : Option String := none
  address_zip_code : Option String := none
  address_street : Option String := none
  address_number : Option String := none
  address_complement : Option String := none
  address_district : Option String := none
  address_city : Option String := none
  address_state : Option String := none
  observations : Option String := none
  behavior_score : Option Int := none
  absenteeism_risk_score : Option Int := none
  communication_preferences : Option (List (String × Bool)) := none
deriving Repr, DecidableEq

/-- Update payload: `PatientUpdate = Partial<PatientInsert> & \x7b id: string \x7d`.
The outer `Option` marks whether the property is present in the payload at all
(JavaScript spread only copies present properties); `id` is required. -/
structure PatientUpdate where
  id : String
  photo_url : Option (Option String) := none
  full_name : Option String := none
  social_name : Option (Option String) := none
  cpf : Option String := none
  rg : Option (Option String) := none
  other_document_type : Option (Option String) := none
  other_document_number : Option (Option String) := none
  gender : Option (Option String) := none
  birth_date : Option String := none
  ethnicity : Option (Option String) := none
  race : Option (Option String) := none
  nationality : Option (Option String) := none
  birth_city : Option (Option String) := none
  birth_state : Option (Option String) := none
  profession : Option (Option String) := none
  marital_status : Option (Option String) := none
  mother_name : Option (Option String) := none
  father_name : Option (Option String) := none
  responsible_name : Option (Option String) := none
  responsible_cpf : Option (Option String) := none
  legacy_code : Option (Option String) := none
  email : Option (Option String) := none
  phone_primary : Option String := none
  phone_secondary : Option (Option String) := none
  address_zip_code : Option (Option String) := none
  address_street : Option (Option String) := none
  address_number : Option (Option String) := none
  address_complement : Option (Option String) := none
  address_district : Option (Option String) := none
  address_city : Option (Option String) := none
  address_state : Option (Option String) := none
  observations : Option (Option String) := none
  behavior_score : Option (Option Int) := none
  absenteeism_risk_score : Option (Option Int) := none
  communication_preferences : Option (Option (List (String × Bool))) := none
deriving Repr, DecidableEq

/-- patientsService.ts line 18: `export const onlyDigits = (v) => (v || "").replace(/\D+/g, "")`.
Keeps exactly the decimal-digit characters, in order. -/
def onlyDigits (v : String) : String :=
  ⟨v.toList.filter Char.isDigit⟩

/-- JavaScript `String.prototype.toLowerCase`, modelled per character. -/
def jsToLower (s : String) : String :=
  ⟨s.toList.map Char.toLower⟩

/-- Does the haystack start with the needle? (helper for the `includes` model). -/
def leadMatch : List Char → List Char → Bool
  | [], _ => true
  | _ :: _, [] => false
  | n :: ns, h :: hs => n == h && leadMatch ns hs

/-- Does the haystack contain the needle as a contiguous run? -/
def containsRun (needle : List Char) : List Char → Bool
  | [] => leadMatch needle []
  | h :: hs => leadMatch needle (h :: hs) || containsRun needle hs

/-- JavaScript `s.includes(sub)` (substring containment). -/
def jsIncludes (s sub : String) : Bool :=
  containsRun sub.toList s.toList

/-- patientsService.ts lines 23-28: `matchesSearch(p, term)`. -/
def matchesSearch (p : Patient) (term : String) : Bool :=
  if term = "" then true
  else
    let t := jsToLower term
    let cpf := onlyDigits p.cpf
    jsIncludes (jsToLower p.full_name) t || jsIncludes cpf (onlyDigits t)

/-- Sort key of patientsService.ts lines 37-38:
`a.created_at ? new Date(a.created_at).getTime() : 0`. -/
def createdKey (p : Patient) : Nat :=
  p.created_at.getD 0

/-- patientsService.ts lines 36-40: the local `sorted` array. JavaScript
`Array.prototype.sort` is stable and the comparator `bd - ad` orders by
descending key, which is exactly stable `mergeSort` with `le a b := key b ≤ key a`. -/
def sortedDb (db : List Patient) : List Patient :=
  db.mergeSort (fun a b => Nat.ble (createdKey b) (createdKey a))

/-- patientsService.ts line 41: the local `filtered` array. -/
def filteredDb (db : List Patient) (search : String) : List Patient :=
  (sortedDb db).filter (fun p => matchesSearch p search)

/-- JavaScript `Array.prototype.slice(start, stop)` for the non-negative indices
used here (`listPatients` is documented 1-based, so `from = (page-1)*pageSize ≥ 0`). -/
def jsSlice {α : Type} (l : List α) (start stop : Nat) : List α :=
  (l.drop start).take (stop - start)

/-- Result shape of `listPatients` (interface `ListPatientsResult`). -/
structure ListPatientsResult where
  data : List Patient
  count : Nat
deriving Repr, DecidableEq

/-- patientsService.ts lines 30-47: `listPatients(\x7bpage = 1, pageSize = 10, search = ""\x7d)`
over an explicit store `db` (the module-level `MOCK_DB`). -/
def listPatients (db : List Patient) (page pageSize : Nat) (search : String) :
    ListPatientsResult :=
  let filtered := filteredDb db search
  let count := filtered.length
  let fromIdx := (page - 1) * pageSize
  let toIdx := fromIdx + pageSize
  { data := jsSlice filtered fromIdx toIdx, count := count }

/-- patientsService.ts lines 49-51: `getPatientById`. -/
def getPatientById (db : List Patient) (i : String) : Option Patient :=
  db.find? (fun p => p.id == some i)

/-- patientsService.ts lines 53-63: `createPatient`. The generated UUID `fid`
and the current instant `t` are explicit inputs (external effects). Returns the
stored entity together with the new store (`MOCK_DB.push(entity)`). -/
def createPatient (db : List Patient) (payload : PatientInsert) (fid : String)
    (t : Nat) : Patient × List Patient :=
  let entity : Patient :=
    { id := some fid
      photo_url := payload.photo_url
      full_name := payload.full_name
      social_name := payload.social_name
      cpf := payload.cpf
      rg := payload.rg
      other_document_type := payload.other_document_type
      other_document_number := payload.other_document_number
      gender := payload.gender
      birth_date := payload.birth_date
      ethnicity := payload.ethnicity
      race := payload.race
      nationality := payload.nationality
      birth_city := payload.birth_city
      birth_state := payload.birth_state
      profession := payload.profession
      marital_status := payload.marital_status
      mother_name := payload.mother_name
      father_name := payload.father_name
      responsible_name := payload.responsible_name
      responsible_cpf := payload.responsible_cpf
      legacy_code := payload.legacy_code
      email := payload.email
      phone_primary := payload.phone_primary
      phone_secondary := payload.phone_secondary
      address_zip_code := payload.address_zip_code
      address_street := payload.address_street
      address_number := payload.address_number
      address_complement := payload.address_complement
      address_district := payload.address_district
      address_city := payload.address_city
      address_state := payload.address_state
      observations := payload.observations
      behavior_score := payload.behavior_score
      absenteeism_risk_score := payload.absenteeism_risk_score
      communication_preferences := payload.communication_preferences
      created_at := some t
      updated_at := some t }
  (entity, db ++ [entity])

/-- patientsService.ts lines 68-72: the spread
`\x7b ...MOCK_DB[idx], ...payload, updated_at: now \x7d`. A present payload property
overwrites, an absent one keeps the stored value; `id` is always present in a
`PatientUpdate`, and `created_at`/`updated_at` cannot occur in it (its type omits
them), so `created_at` comes from the stored record and `updated_at` is the
explicit final property. -/
def mergePatient (p : Patient) (u : PatientUpdate) (t : Nat) : Patient :=
  { id := some u.id
    photo_url := u.photo_url.getD p.photo_url
    full_name := u.full_name.getD p.full_name
    social_name := u.social_name.getD p.social_name
    cpf := u.cpf.getD p.cpf
    rg := u.rg.getD p.rg
    other_document_type := u.other_document_type.getD p.other_document_type
    other_document_number := u.other_document_number.getD p.other_document_number
    gender := u.gender.getD p.gender
    birth_date := u.birth_date.getD p.birth_date
    ethnicity := u.ethnicity.getD p.ethnicity
    race := u.race.getD p.race
    nationality := u.nationality.getD p.nationality
    birth_city := u.birth_city.getD p.birth_city
    birth_state := u.birth_state.getD p.birth_state
    profession := u.profession.getD p.profession
    marital_status := u.marital_status.getD p.marital_status
    mother_name := u.mother_name.getD p.mother_name
    father_name := u.father_name.getD p.father_name
    responsible_name := u.responsible_name.getD p.responsible_name
    responsible_cpf := u.responsible_cpf.getD p.responsible_cpf
    legacy_code := u.legacy_code.getD p.legacy_code
    email := u.email.getD p.email
    phone_primary := u.phone_primary.getD p.phone_primary
    phone_secondary := u.phone_secondary.getD p.phone_secondary
    address_zip_code := u.address_zip_code.getD p.address_zip_code
    address_street := u.address_street.getD p.address_street
    address_number := u.address_number.getD p.address_number
    address_complement := u.address_complement.getD p.address_complement
    address_district := u.address_district.getD p.address_district
    address_city := u.address_city.getD p.address_city
    address_state := u.address_state.getD p.address_state
    observations := u.observations.getD p.observations
    behavior_score := u.behavior_score.getD p.behavior_score
    absenteeism_risk_score := u.absenteeism_risk_score.getD p.absenteeism_risk_score
    communication_preferences :=
      u.communication_preferences.getD p.communication_preferences
    created_at := p.created_at
    updated_at := some t }

/-- patientsService.ts lines 65-75: `updatePatient`. `findIndex` locates the first
record whose `id` equals `payload.id` and `MOCK_DB[idx] = updated` replaces exactly
that slot, which is this first-match recursion; the `throw` on no match is `none`.
Returns the merged record and the new store. -/
def updatePatient (u : PatientUpdate) (t : Nat) :
    List Patient → Option (Patient × List Patient)
  | [] => none
  | p :: rest =>
    if p.id == some u.id then
      let m := mergePatient p u t
      some (m, m :: rest)
    else
      match updatePatient u t rest with
      | none => none
      | some (m, rest') => some (m, p :: rest')

/-- patientsService.ts lines 77-79: `deletePatient` (`MOCK_DB.filter(p => p.id !== id)`). -/
def deletePatient (db : List Patient) (i : String) : List Patient :=
  db.filter (fun p => !(p.id == some i))

/-- One externally triggered repository operation, with the effectful inputs
(generated UUID, current instant) made explicit. -/
inductive Op where
  | create (payload : PatientInsert) (fid : String) (t : Nat)
  | update (payload : PatientUpdate) (t : Nat)
  | delete (i : String)
deriving Repr

/-- Effect of one operation on the store. A failing update (thrown error) leaves
the store untouched. -/
def applyOp (db : List Patient) : Op → List Patient
  | .create payload fid t => (createPatient db payload fid t).2
  | .update payload t =>
    match updatePatient payload t db with
    | none => db
    | some (_, db') => db'
  | .delete i => deletePatient db i

/-- Store reached from the initial empty `MOCK_DB` by a sequence of operations. -/
def execOps (ops : List Op) : List Patient :=
  ops.foldl applyOp []

/-- All characters of the string are decimal digits. -/
def allDigits (s : String) : Bool :=
  s.toList.all Char.isDigit

/-- Validation contract consumed from the form layer (FormSchema in the patient
form page): after the schema transforms, `cpf` is `onlyDigits` output of length
exactly 11 and `phone_primary` is `onlyDigits` output of length at least 10.
For an update payload the same holds for each of those properties when present. -/
def opValid : Op → Bool
  | .create payload _ _ =>
    decide (payload.cpf.length = 11) && allDigits payload.cpf
      && decide (10 ≤ payload.phone_primary.length) && allDigits payload.phone_primary
  | .update u _ =>
    (match u.cpf with
      | none => true
      | some s => decide (s.length = 11) && allDigits s)
      && (match u.phone_primary with
        | none => true
        | some s => decide (10 ≤ s.length) && allDigits s)
  | .delete _ => true

/-- The wall-clock instant an operation reads (`new Date()`), when it reads one. -/
def opTime : Op → Option Nat
  | .create _ _ t => some t
  | .update _ t => some t
  | .delete _ => none

/-- The clock readings along an operation sequence are nondecreasing and start at
or after `t0` (a monotone wall clock). -/
def timesMonoB : Nat → List Op → Bool
  | _, [] => true
  | t0, op :: rest =>
    match opTime op with
    | none => timesMonoB t0 rest
    | some t => Nat.ble t0 t && timesMonoB t rest

/-- Sample stored record used for concrete instances. -/
def pA : Patient :=
  { id := some "a", full_name := "Ana Lima", cpf := "11122233344",
    phone_primary := "11999998888", birth_date := "1990-05-10",
    created_at := some 5, updated_at := some 5 }

/-- Sample stored record from the spec's search scenario. -/
def mariaP : Patient :=
  { id := some "m", full_name := "Maria Silva", cpf := "12345678901",
    phone_primary := "11988887777", birth_date := "1980-01-01",
    created_at := some 3, updated_at := some 3 }

/-- Record created at instant 1 (oldest of the sort scenario). -/
def pT1 : Patient :=
  { id := some "t1", full_name := "One", cpf := "00000000001",
    phone_primary := "1100000001", birth_date := "2000-01-01",
    created_at := some 1, updated_at := some 1 }

/-- Record created at instant 2. -/
def pT2 : Patient :=
  { id := some "t2", full_name := "Two", cpf := "00000000002",
    phone_primary := "1100000002", birth_date := "2000-01-02",
    created_at := some 2, updated_at := some 2 }

/-- Record created at instant 3 (newest of the sort scenario). -/
def pT3 : Patient :=
  { id := some "t3", full_name := "Three", cpf := "00000000003",
    phone_primary := "1100000003", birth_date := "2000-01-03",
    created_at := some 3, updated_at := some 3 }

/-- Sample create payload (the spec's end-to-end scenario). -/
def payloadW : PatientInsert :=
  { full_name := "Ana Lima", cpf := "11122233344",
    phone_primary := "11999998888", birth_date := "1990-05-10" }

/-- Sample update payload carrying only a new full_name. -/
def uX : PatientUpdate :=
  { id := "a", full_name := some "X" }

/-- Sample update payload whose id matches no stored record. -/
def uZ : PatientUpdate :=
  { id := "zz", full_name := some "Y" }

/-- Sample record with no created_at (exercises the zero-key sort fallback). -/
def pN : Patient :=
  { full_name := "N", cpf := "0", phone_primary := "0", birth_date := "d" }

/-- Characterisation of Char.isDigit through the numeric code point. -/
theorem char_isDigit_iff (c : Char) : c.isDigit = true ↔ 48 ≤ c.toNat ∧ c.toNat ≤ 57 := by
  simp [Char.isDigit, Char.toNat, UInt32.le_def, BitVec.le_def, UInt32.toNat]

/-- Code point of a character built from a valid scalar value. -/
theorem char_toNat_ofNatAux (n : Nat) (h : Nat.isValidChar n) :
    (Char.ofNatAux n h).toNat = n := by
  simp [Char.ofNatAux, Char.toNat, UInt32.toNat]

/-- Lower-casing never changes digit-ness of a character. -/
theorem toLower_isDigit (c : Char) : c.toLower.isDigit = c.isDigit := by
  by_cases hc : c.toNat ≥ 65 ∧ c.toNat ≤ 90
  · have he : c.toLower = Char.ofNat (c.toNat + 32) := by
      simp [Char.toLower, hc]
    have hv : Nat.isValidChar (c.toNat + 32) := Or.inl (by omega)
    have h1 : (Char.ofNat (c.toNat + 32)).toNat = c.toNat + 32 := by
      rw [Char.ofNat, dif_pos hv, char_toNat_ofNatAux]
    have h2 : (Char.ofNat (c.toNat + 32)).isDigit = false := by
      rw [← Bool.not_eq_true]
      intro hd
      have := (char_isDigit_iff _).mp hd
      omega
    have h3 : c.isDigit = false := by
      rw [← Bool.not_eq_true]
      intro hd
      have := (char_isDigit_iff _).mp hd
      omega
    rw [he, h2, h3]
  · have he : c.toLower = c := by
      simp [Char.toLower, hc]
    rw [he]

/-- Lower-casing fixes digit characters. -/
theorem toLower_eq_self_of_isDigit (c : Char) (h : c.isDigit = true) : c.toLower = c := by
  have hd := (char_isDigit_iff c).mp h
  have hc : ¬(c.toNat ≥ 65 ∧ c.toNat ≤ 90) := by omega
  simp [Char.toLower, hc]

/-- Keeping the digits commutes with lower-casing the character list. -/
theorem filter_isDigit_map_toLower (l : List Char) :
    (l.map Char.toLower).filter Char.isDigit = l.filter Char.isDigit := by
  induction l with
  | nil => rfl
  | cons c l ih =>
    simp only [List.map_cons, List.filter_cons, toLower_isDigit]
    cases hd : c.isDigit with
    | false => simpa using ih
    | true => rw [toLower_eq_self_of_isDigit c hd]; simpa using ih

/-- Digit-normalisation is unaffected by lower-casing, so applying it to the
lower-cased search term (as the code does) equals applying it to the raw term
(as the spec says). -/
theorem onlyDigits_jsToLower (s : String) : onlyDigits (jsToLower s) = onlyDigits s := by
  unfold onlyDigits jsToLower
  exact congrArg String.mk (filter_isDigit_map_toLower s.toList)

/-- The empty needle occurs in every haystack. -/
theorem containsRun_nil (hay : List Char) : containsRun [] hay = true := by
  induction hay with
  | nil => rfl
  | cons h hs ih => simp [containsRun, leadMatch]

/-- JavaScript includes with the empty substring is always true. -/
theorem jsIncludes_empty (s : String) : jsIncludes s "" = true :=
  containsRun_nil s.toList

/-- The search predicate, as the disjunction the spec states. -/
theorem matchesSearch_iff (p : Patient) (t : String) :
    matchesSearch p t = true ↔
      (t = "" ∨ jsIncludes (jsToLower p.full_name) (jsToLower t) = true ∨
        jsIncludes (onlyDigits p.cpf) (onlyDigits t) = true) := by
  unfold matchesSearch
  by_cases h : t = ""
  · simp [h]
  · rw [if_neg h]
    simp [h, onlyDigits_jsToLower]

/-- The empty search term accepts every record. -/
theorem matchesSearch_empty (p : Patient) : matchesSearch p "" = true := by
  unfold matchesSearch
  rw [if_pos rfl]

/-- The sorted view is a permutation of the store. -/
theorem sortedDb_perm (db : List Patient) : (sortedDb db).Perm db :=
  List.mergeSort_perm db _

/-- Sorting a single-record store is the identity. -/
theorem sortedDb_singleton (p : Patient) : sortedDb [p] = [p] :=
  List.perm_singleton.mp (sortedDb_perm [p])

/-- No match in the store means updatePatient signals the error outcome. -/
theorem updatePatient_eq_none (u : PatientUpdate) (t : Nat) :
    ∀ db : List Patient, (∀ q ∈ db, ¬ q.id = some u.id) → updatePatient u t db = none := by
  intro db
  induction db with
  | nil => intro _; rfl
  | cons q rest ih =>
    intro h
    have hq : ¬ q.id = some u.id := h q (List.mem_cons_self q rest)
    have ih' := ih (fun r hr => h r (List.mem_cons_of_mem q hr))
    simp [updatePatient, hq, ih']

/-- Every record accepted by every record: the filtered view is the sorted store. -/
theorem filteredDb_of_all (db : List Patient) (t : String)
    (h : ∀ p, matchesSearch p t = true) : filteredDb db t = sortedDb db := by
  rw [filteredDb, List.filter_eq_self]
  intro a _
  exact h a

/-- The one-record store sorts to itself, so its listing slices a plain filter. -/
theorem listPatients_singleton_data (p : Patient) (page pageSize : Nat) (s : String) :
    (listPatients [p] page pageSize s).data
      = jsSlice ([p].filter (fun q => matchesSearch q s))
          ((page - 1) * pageSize) ((page - 1) * pageSize + pageSize) := by
  rw [listPatients, filteredDb, sortedDb_singleton]

/-- C2: a stored patient is in the filtered set of listPatients exactly when the
term is empty, or the lower-cased term occurs in the lower-cased full_name, or the
digit-normalised term occurs in the digit-normalised cpf; with the Maria Silva
record, searching "maria" and "12345678901" return it and "999" does not. -/
theorem search_filter_spec (db : List Patient) (p : Patient) (t : String) :
    (p ∈ filteredDb db t ↔
      p ∈ db ∧ (t = "" ∨ jsIncludes (jsToLower p.full_name) (jsToLower t) = true ∨
        jsIncludes (onlyDigits p.cpf) (onlyDigits t) = true))
    ∧ matchesSearch mariaP "maria" = true
    ∧ matchesSearch mariaP "12345678901" = true
    ∧ matchesSearch mariaP "999" = false
    ∧ (listPatients [mariaP] 1 10 "maria").data = [mariaP]
    ∧ (listPatients [mariaP] 1 10 "12345678901").data = [mariaP]
    ∧ (listPatients [mariaP] 1 10 "999").data = [] := by
  refine ⟨?_, by decide, by decide, by decide, ?_, ?_, ?_⟩
  · have h1 : p ∈ filteredDb db t ↔ p ∈ sortedDb db ∧ matchesSearch p t = true :=
      List.mem_filter
    rw [h1, (sortedDb_perm db).mem_iff, matchesSearch_iff]
  · rw [listPatients_singleton_data]; decide
  · rw [listPatients_singleton_data]; decide
  · rw [listPatients_singleton_data]; decide

/-- C4: an update whose id matches no stored record fails with the not-found
outcome and leaves the store exactly unchanged. -/
theorem update_notFound_spec (u : PatientUpdate) (t : Nat) (db : List Patient)
    (h : ∀ q ∈ db, ¬ q.id = some u.id) :
    updatePatient u t db = none ∧ applyOp db (Op.update u t) = db := by
  have hn := updatePatient_eq_none u t db h
  exact ⟨hn, by simp [applyOp, hn]⟩

/-- Concrete instance of the not-found update: id "zz" is absent. -/
theorem update_notFound_spec_witness :
    updatePatient uZ 0 [pA] = none ∧ applyOp [pA] (Op.update uZ 0) = [pA] :=
  update_notFound_spec uZ 0 [pA] (by decide)

/-- C6: delete removes exactly the records with the given id, deleting an absent
id is a silent no-op, and a second delete of the same id changes nothing. -/
theorem deletePatient_spec (db : List Patient) (i : String) :
    (∀ p, p ∈ deletePatient db i ↔ p ∈ db ∧ ¬ p.id = some i)
    ∧ deletePatient (deletePatient db i) i = deletePatient db i
    ∧ ((∀ p ∈ db, ¬ p.id = some i) → deletePatient db i = db) := by
  refine ⟨?_, ?_, ?_⟩
  · intro p
    simp [deletePatient, List.mem_filter]
  · rw [deletePatient, deletePatient, List.filter_filter]
    simp
  · intro h
    rw [deletePatient, List.filter_eq_self]
    intro a ha
    simpa using h a ha

/-- Concrete instance of the absent-id delete no-op. -/
theorem deletePatient_spec_witness : deletePatient [pA] "b" = [pA] :=
  (deletePatient_spec [pA] "b").2.2 (by decide)

/-- C10: a non-empty term with no digit normalises to the empty string, which
occurs in every cpf, so every record matches and the listing is that of the
empty search; in particular the count is the whole store's size. -/
theorem nondigit_search_returns_all (t : String) (_h1 : ¬ t = "")
    (h2 : ∀ c ∈ t.toList, c.isDigit = false) :
    onlyDigits t = ""
    ∧ (∀ p : Patient, matchesSearch p t = true)
    ∧ (∀ (db : List Patient) (page pageSize : Nat),
        listPatients db page pageSize t = listPatients db page pageSize "")
    ∧ (∀ (db : List Patient) (page pageSize : Nat),
        (listPatients db page pageSize t).count = db.length) := by
  have hod : onlyDigits t = "" := by
    rw [onlyDigits]
    have hf : t.toList.filter Char.isDigit = [] :=
      List.filter_eq_nil_iff.mpr (fun a ha => by simp [h2 a ha])
    rw [hf]
  have hm : ∀ p : Patient, matchesSearch p t = true := by
    intro p
    rw [matchesSearch_iff]
    right; right
    rw [hod]
    exact jsIncludes_empty _
  have hfe : ∀ db : List Patient, filteredDb db t = filteredDb db "" := by
    intro db
    rw [filteredDb_of_all db t hm, filteredDb_of_all db "" (fun p => matchesSearch_empty p)]
  refine ⟨hod, hm, ?_, ?_⟩
  · intro db page pageSize
    rw [listPatients, listPatients, hfe]
  · intro db page pageSize
    show (filteredDb db t).length = db.length
    rw [filteredDb_of_all db t hm]
    exact (sortedDb_perm db).length_eq

/-- Concrete instance: the all-letter term "abc" digit-normalises to empty. -/
theorem nondigit_search_returns_all_witness : onlyDigits "abc" = "" :=
  (nondigit_search_returns_all "abc" (by decide) (by decide)).1

/-- C5: create appends the new entity to the store (existing records untouched),
stamps created_at = updated_at = the same instant, copies every payload field,
and returns the stored record carrying the generated id; under the UUID
generator's contract (non-empty, never-repeating output, given as hypotheses on
the generated value) the id is non-empty and fresh. -/
theorem createPatient_spec (db : List Patient) (payload : PatientInsert)
    (fid : String) (t : Nat) (hne : ¬ fid = "")
    (hfresh : ∀ q ∈ db, ¬ q.id = some fid) :
    (createPatient db payload fid t).2 = db ++ [(createPatient db payload fid t).1]
    ∧ (createPatient db payload fid t).1.id = some fid
    ∧ (∃ s, (createPatient db payload fid t).1.id = some s ∧ ¬ s = "")
    ∧ (∀ q ∈ db, ¬ q.id = (createPatient db payload fid t).1.id)
    ∧ (createPatient db payload fid t).1.created_at = some t
    ∧ (createPatient db payload fid t).1.updated_at = some t
    ∧ (createPatient db payload fid t).1.created_at
        = (createPatient db payload fid t).1.updated_at
    ∧ (createPatient db payload fid t).1.full_name = payload.full_name
    ∧ (createPatient db payload fid t).1.cpf = payload.cpf
    ∧ (createPatient db payload fid t).1.birth_date = payload.birth_date
    ∧ (createPatient db payload fid t).1.phone_primary = payload.phone_primary
    ∧ (createPatient db payload fid t).1.photo_url = payload.photo_url
    ∧ (createPatient db payload fid t).1.social_name = payload.social_name
    ∧ (createPatient db payload fid t).1.rg = payload.rg
    ∧ (createPatient db payload fid t).1.other_document_type = payload.other_document_type
    ∧ (createPatient db payload fid t).1.other_document_number = payload.other_document_number
    ∧ (createPatient db payload fid t).1.gender = payload.gender
    ∧ (createPatient db payload fid t).1.ethnicity = payload.ethnicity
    ∧ (createPatient db payload fid t).1.race = payload.race
    ∧ (createPatient db payload fid t).1.nationality = payload.nationality
    ∧ (createPatient db payload fid t).1.birth_city = payload.birth_city
    ∧ (createPatient db payload fid t).1.birth_state = payload.birth_state
    ∧ (createPatient db payload fid t).1.profession = payload.profession
    ∧ (createPatient db payload fid t).1.marital_status = payload.marital_status
    ∧ (createPatient db payload fid t).1.mother_name = payload.mother_name
    ∧ (createPatient db payload fid t).1.father_name = payload.father_name
    ∧ (createPatient db payload fid t).1.responsible_name = payload.responsible_name
    ∧ (createPatient db payload fid t).1.responsible_cpf = payload.responsible_cpf
    ∧ (createPatient db payload fid t).1.legacy_code = payload.legacy_code
    ∧ (createPatient db payload fid t).1.email = payload.email
    ∧ (createPatient db payload fid t).1.phone_secondary = payload.phone_secondary
    ∧ (createPatient db payload fid t).1.address_zip_code = payload.address_zip_code
    ∧ (createPatient db payload fid t).1.address_street = payload.address_street
    ∧ (createPatient db payload fid t).1.address_number = payload.address_number
    ∧ (createPatient db payload fid t).1.address_complement = payload.address_complement
    ∧ (createPatient db payload fid t).1.address_district = payload.address_district
    ∧ (createPatient db payload fid t).1.address_city = payload.address_city
    ∧ (createPatient db payload fid t).1.address_state = payload.address_state
    ∧ (createPatient db payload fid t).1.observations = payload.observations
    ∧ (createPatient db payload fid t).1.behavior_score = payload.behavior_score
    ∧ (createPatient db payload fid t).1.absenteeism_risk_score
        = payload.absenteeism_risk_score
    ∧ (createPatient db payload fid t).1.communication_preferences
        = payload.communication_preferences := by
  refine ⟨rfl, rfl, ⟨fid, rfl, hne⟩, fun q hq => hfresh q hq, ?_⟩
  exact ⟨rfl, rfl, rfl, rfl, rfl, rfl, rfl, rfl, rfl, rfl, rfl, rfl, rfl, rfl, rfl,
    rfl, rfl, rfl, rfl, rfl, rfl, rfl, rfl, rfl, rfl, rfl, rfl, rfl, rfl, rfl, rfl,
    rfl, rfl, rfl, rfl, rfl, rfl, rfl⟩

/-- Concrete instance of create: the end-to-end scenario payload gets id "fresh". -/
theorem createPatient_spec_witness :
    (createPatient [pA] payloadW "fresh" 7).1.id = some "fresh" :=
  (createPatient_spec [pA] payloadW "fresh" 7 (by decide) (by decide)).2.1

unseal List.merge List.mergeSort in
/-- C7: listPatients sorts by created_at descending before filtering and slicing
(the filtered view filters the sorted view), a missing created_at sorts with key
zero (the oldest), the sorted view is a permutation of the store, and the three
records created at instants 1 < 2 < 3 list as [newest, middle, oldest]. -/
theorem listPatients_sort_spec :
    (∀ db : List Patient, (sortedDb db).Perm db)
    ∧ (∀ db : List Patient,
        List.Pairwise (fun a b => createdKey b ≤ createdKey a) (sortedDb db))
    ∧ (∀ (db : List Patient) (s : String),
        filteredDb db s = (sortedDb db).filter (fun p => matchesSearch p s))
    ∧ (∀ p : Patient, p.created_at = none → createdKey p = 0)
    ∧ sortedDb [pT1, pT2, pT3] = [pT3, pT2, pT1]
    ∧ (listPatients [pT1, pT2, pT3] 1 10 "").data = [pT3, pT2, pT1] := by
  refine ⟨sortedDb_perm, ?_, fun _ _ => rfl, ?_, by decide, ?_⟩
  · intro db
    have hs := @List.sorted_mergeSort Patient
      (fun a b : Patient => Nat.ble (createdKey b) (createdKey a))
      (fun a b c hab hbc => by
        rw [Nat.ble_eq] at hab hbc ⊢
        omega)
      (fun a b => by
        rw [Bool.or_eq_true, Nat.ble_eq, Nat.ble_eq]
        omega)
      db
    exact hs.imp (fun h => Nat.ble_eq.mp h)
  · intro p h
    rw [createdKey, h]
    rfl
  · have hs : sortedDb [pT1, pT2, pT3] = [pT3, pT2, pT1] := by decide
    rw [listPatients, filteredDb, hs]
    decide

/-- updatePatient and the first matching slot: every record before the match is
kept, the match itself is replaced by the merged record, everything after is kept,
and the merged record is returned. -/
theorem updatePatient_first (u : PatientUpdate) (t : Nat) :
    ∀ (db₁ db₂ : List Patient) (p : Patient),
      (∀ q ∈ db₁, ¬ q.id = some u.id) → p.id = some u.id →
      updatePatient u t (db₁ ++ p :: db₂)
        = some (mergePatient p u t, db₁ ++ mergePatient p u t :: db₂) := by
  intro db₁
  induction db₁ with
  | nil =>
    intro db₂ p _ hp
    simp [updatePatient, hp]
  | cons q db₁ ih =>
    intro db₂ p hq hp
    have hqid : ¬ q.id = some u.id := hq q (List.mem_cons_self q db₁)
    have ih' := ih db₂ p (fun r hr => hq r (List.mem_cons_of_mem q hr)) hp
    simp [updatePatient, hqid, ih']

/-- find over a store whose first id match is m yields m. -/
theorem getPatientById_first (i : String) :
    ∀ (db₁ db₂ : List Patient) (m : Patient),
      (∀ q ∈ db₁, ¬ q.id = some i) → m.id = some i →
      getPatientById (db₁ ++ m :: db₂) i = some m := by
  intro db₁
  induction db₁ with
  | nil =>
    intro db₂ m _ hm
    rw [getPatientById, List.nil_append,
      List.find?_cons_of_pos _ (by simpa using hm)]
  | cons q db₁ ih =>
    intro db₂ m hq hm
    have hqid : ¬ q.id = some i := hq q (List.mem_cons_self q db₁)
    have ih' := ih db₂ m (fun r hr => hq r (List.mem_cons_of_mem q hr)) hm
    rw [getPatientById, List.cons_append,
      List.find?_cons_of_neg _ (by simpa using hqid)]
    exact ih'

/-- C3: updating a store whose unique id match is record p replaces exactly that
slot with the merge of the payload over p and returns that merged record; id and
created_at are taken from p (id because the match forces payload.id = p.id, and
the payload type cannot carry created_at), updated_at becomes the current instant
(strictly after p's when the clock advanced), re-fetching the id yields the merged
record, and each data field holds the payload's value when present and p's value
when absent. -/
theorem updatePatient_merge_spec (db₁ db₂ : List Patient) (p : Patient)
    (u : PatientUpdate) (t : Nat)
    (hfirst : ∀ q ∈ db₁, ¬ q.id = some u.id) (hp : p.id = some u.id)
    (hclock : ∀ v ∈ p.updated_at, v < t) :
    updatePatient u t (db₁ ++ p :: db₂)
      = some (mergePatient p u t, db₁ ++ mergePatient p u t :: db₂)
    ∧ (mergePatient p u t).id = p.id
    ∧ (mergePatient p u t).created_at = p.created_at
    ∧ (mergePatient p u t).updated_at = some t
    ∧ (∀ v ∈ p.updated_at, ∀ w ∈ (mergePatient p u t).updated_at, v < w)
    ∧ getPatientById (db₁ ++ mergePatient p u t :: db₂) u.id = some (mergePatient p u t)
    ∧ (∀ v, u.full_name = some v → (mergePatient p u t).full_name = v)
    ∧ (u.full_name = none → (mergePatient p u t).full_name = p.full_name)
    ∧ (mergePatient p u t).full_name = u.full_name.getD p.full_name
    ∧ (mergePatient p u t).cpf = u.cpf.getD p.cpf
    ∧ (mergePatient p u t).birth_date = u.birth_date.getD p.birth_date
    ∧ (mergePatient p u t).phone_primary = u.phone_primary.getD p.phone_primary
    ∧ (mergePatient p u t).photo_url = u.photo_url.getD p.photo_url
    ∧ (mergePatient p u t).social_name = u.social_name.getD p.social_name
    ∧ (mergePatient p u t).rg = u.rg.getD p.rg
    ∧ (mergePatient p u t).other_document_type
        = u.other_document_type.getD p.other_document_type
    ∧ (mergePatient p u t).other_document_number
        = u.other_document_number.getD p.other_document_number
    ∧ (mergePatient p u t).gender = u.gender.getD p.gender
    ∧ (mergePatient p u t).ethnicity = u.ethnicity.getD p.ethnicity
    ∧ (mergePatient p u t).race = u.race.getD p.race
    ∧ (mergePatient p u t).nationality = u.nationality.getD p.nationality
    ∧ (mergePatient p u t).birth_city = u.birth_city.getD p.birth_city
    ∧ (mergePatient p u t).birth_state = u.birth_state.getD p.birth_state
    ∧ (mergePatient p u t).profession = u.profession.getD p.profession
    ∧ (mergePatient p u t).marital_status = u.marital_status.getD p.marital_status
    ∧ (mergePatient p u t).mother_name = u.mother_name.getD p.mother_name
    ∧ (mergePatient p u t).father_name = u.father_name.getD p.father_name
    ∧ (mergePatient p u t).responsible_name
        = u.responsible_name.getD p.responsible_name
    ∧ (mergePatient p u t).responsible_cpf = u.responsible_cpf.getD p.responsible_cpf
    ∧ (mergePatient p u t).legacy_code = u.legacy_code.getD p.legacy_code
    ∧ (mergePatient p u t).email = u.email.getD p.email
    ∧ (mergePatient p u t).phone_secondary = u.phone_secondary.getD p.phone_secondary
    ∧ (mergePatient p u t).address_zip_code = u.address_zip_code.getD p.address_zip_code
    ∧ (mergePatient p u t).address_street = u.address_street.getD p.address_street
    ∧ (mergePatient p u t).address_number = u.address_number.getD p.address_number
    ∧ (mergePatient p u t).address_complement
        = u.address_complement.getD p.address_complement
    ∧ (mergePatient p u t).address_district
        = u.address_district.getD p.address_district
    ∧ (mergePatient p u t).address_city = u.address_city.getD p.address_city
    ∧ (mergePatient p u t).address_state = u.address_state.getD p.address_state
    ∧ (mergePatient p u t).observations = u.observations.getD p.observations
    ∧ (mergePatient p u t).behavior_score = u.behavior_score.getD p.behavior_score
    ∧ (mergePatient p u t).absenteeism_risk_score
        = u.absenteeism_risk_score.getD p.absenteeism_risk_score
    ∧ (mergePatient p u t).communication_preferences
        = u.communication_preferences.getD p.communication_preferences := by
  refine ⟨updatePatient_first u t db₁ db₂ p hfirst hp, hp.symm, rfl, rfl, ?_, ?_, ?_, ?_, ?_⟩
  · intro v hv w hw
    have hw' : t = w := by simpa [mergePatient] using hw
    subst hw'
    exact hclock v hv
  · exact getPatientById_first u.id db₁ db₂ (mergePatient p u t) hfirst rfl
  · intro v hv
    simp [mergePatient, hv]
  · intro hv
    simp [mergePatient, hv]
  · exact ⟨rfl, rfl, rfl, rfl, rfl, rfl, rfl, rfl, rfl, rfl, rfl, rfl, rfl, rfl, rfl,
      rfl, rfl, rfl, rfl, rfl, rfl, rfl, rfl, rfl, rfl, rfl, rfl, rfl, rfl, rfl, rfl,
      rfl, rfl, rfl, rfl⟩

/-- Concrete instance of the merge update: store [pA], payload with full_name X. -/
theorem updatePatient_merge_spec_witness :
    updatePatient uX 10 [pA] = some (mergePatient pA uX 10, [mergePatient pA uX 10]) :=
  (updatePatient_merge_spec [] [] pA uX 10 (by simp) (by decide)
    (by intro v hv; simp [pA] at hv; omega)).1

/-- Concatenating the first k windows of width P reconstructs the first k*P
elements. -/
theorem flatten_pages {α : Type} (P : Nat) :
    ∀ (k : Nat) (l : List α),
      ((List.range k).map (fun i => (l.drop (i * P)).take P)).flatten
        = l.take (k * P) := by
  intro k
  induction k with
  | zero => intro l; simp
  | succ k ih =>
    intro l
    rw [List.range_succ, List.map_append, List.flatten_append, ih]
    simp only [List.map_cons, List.map_nil, List.flatten_cons, List.flatten_nil,
      List.append_nil]
    rw [Nat.succ_mul, List.take_add]

/-- Ceiling division bound: ceil(N/P) pages of width P cover N elements. -/
theorem ceil_mul_ge (N P : Nat) (hP : 1 ≤ P) : N ≤ ((N + P - 1) / P) * P := by
  have hd := Nat.div_add_mod (N + P - 1) P
  have hm : (N + P - 1) % P < P := Nat.mod_lt _ (by omega)
  rw [Nat.mul_comm]
  omega

/-- A 1-based page is at most the ceiling page count exactly when its window
starts strictly inside the list. -/
theorem page_le_ceil_iff (N P page : Nat) (hp : 1 ≤ page) (hP : 1 ≤ P) :
    ((page - 1) * P < N ↔ page ≤ (N + P - 1) / P) := by
  rw [Nat.le_div_iff_mul_le (by omega : 0 < P), Nat.sub_mul, Nat.one_mul]
  have h2 : P ≤ page * P := Nat.le_mul_of_pos_left P (by omega)
  omega

/-- C1: the count is the size of the whole filtered set whatever page is asked
for; the data is the window [(page-1)*pageSize, page*pageSize) of the filtered,
sorted sequence, clamped by the list bounds, so an out-of-range page gives an
empty array; page p (p ≥ 1) is non-empty exactly when p ≤ ceil(N/pageSize); and
concatenating pages 1..ceil(N/pageSize) reproduces the filtered sequence. -/
theorem listPatients_pagination (db : List Patient) (page pageSize : Nat)
    (s : String) (hp : 1 ≤ page) (hP : 1 ≤ pageSize) :
    (listPatients db page pageSize s).count = (filteredDb db s).length
    ∧ (listPatients db page pageSize s).data
        = ((filteredDb db s).drop ((page - 1) * pageSize)).take pageSize
    ∧ ((filteredDb db s).length ≤ (page - 1) * pageSize →
        (listPatients db page pageSize s).data = [])
    ∧ (¬ (listPatients db page pageSize s).data = [] ↔
        page ≤ ((filteredDb db s).length + pageSize - 1) / pageSize)
    ∧ ((List.range (((filteredDb db s).length + pageSize - 1) / pageSize)).map
          (fun i => (listPatients db (i + 1) pageSize s).data)).flatten
        = filteredDb db s := by
  have hdata : ∀ pg : Nat, (listPatients db pg pageSize s).data
      = ((filteredDb db s).drop ((pg - 1) * pageSize)).take pageSize := by
    intro pg
    rw [listPatients]
    simp [jsSlice, Nat.add_sub_cancel_left]
  refine ⟨rfl, hdata page, ?_, ?_, ?_⟩
  · intro h
    rw [hdata page, List.drop_eq_nil_iff.mpr h, List.take_nil]
  · rw [hdata page, List.take_eq_nil_iff, not_or, List.drop_eq_nil_iff,
      ← page_le_ceil_iff (filteredDb db s).length pageSize page hp hP]
    omega
  · have hmap : (fun i => (listPatients db (i + 1) pageSize s).data)
        = (fun i => ((filteredDb db s).drop (i * pageSize)).take pageSize) := by
      funext i
      rw [hdata (i + 1), Nat.add_sub_cancel]
    rw [hmap, flatten_pages, List.take_of_length_le]
    exact ceil_mul_ge (filteredDb db s).length pageSize hP

/-- Concrete instance of pagination: one record, page 1 of size 2. -/
theorem listPatients_pagination_witness :
    (listPatients [pA] 1 2 "").count = (filteredDb [pA] "").length :=
  (listPatients_pagination [pA] 1 2 "" (by decide) (by decide)).1

/-- Every record of the store after a successful update is either an untouched
record of the old store or the merge of some old record with the payload. -/
theorem updatePatient_mem_cases (u : PatientUpdate) (t : Nat) :
    ∀ (db db' : List Patient) (m : Patient),
      updatePatient u t db = some (m, db') →
      ∀ q ∈ db', q ∈ db ∨ ∃ p ∈ db, q = mergePatient p u t := by
  intro db
  induction db with
  | nil =>
    intro db' m h
    exact absurd h (by simp [updatePatient])
  | cons p rest ih =>
    intro db' m h q hq
    simp only [updatePatient] at h
    split at h
    · rw [Option.some.injEq, Prod.mk.injEq] at h
      obtain ⟨hm, hdb⟩ := h
      rw [← hdb] at hq
      rcases List.mem_cons.mp hq with hqm | hqr
      · exact Or.inr ⟨p, List.mem_cons_self p rest, hqm⟩
      · exact Or.inl (List.mem_cons_of_mem p hqr)
    · cases hrest : updatePatient u t rest with
      | none =>
        rw [hrest] at h
        exact absurd h (by simp)
      | some pr =>
        obtain ⟨m', rest'⟩ := pr
        rw [hrest, Option.some.injEq, Prod.mk.injEq] at h
        obtain ⟨hm, hdb⟩ := h
        rw [← hdb] at hq
        rcases List.mem_cons.mp hq with hqp | hqr
        · exact Or.inl (hqp ▸ List.mem_cons_self p rest)
        · rcases ih rest' m' hrest q hqr with hin | ⟨p0, hp0, he⟩
          · exact Or.inl (List.mem_cons_of_mem p hin)
          · exact Or.inr ⟨p0, List.mem_cons_of_mem p hp0, he⟩

/-- The digits-only invariant on cpf and phone_primary is preserved by any run
of operations whose payloads meet the upstream validation contract. -/
theorem store_digits_aux :
    ∀ (ops : List Op) (db : List Patient),
      (∀ op ∈ ops, opValid op = true) →
      (∀ p ∈ db, allDigits p.cpf = true ∧ allDigits p.phone_primary = true) →
      ∀ p ∈ ops.foldl applyOp db,
        allDigits p.cpf = true ∧ allDigits p.phone_primary = true := by
  intro ops
  induction ops with
  | nil =>
    intro db _ hdb
    simpa using hdb
  | cons op rest ih =>
    intro db hops hdb
    rw [List.foldl_cons]
    apply ih _ (fun o ho => hops o (List.mem_cons_of_mem op ho))
    have hop := hops op (List.mem_cons_self op rest)
    cases op with
    | create payload fid t =>
      intro p hp
      have hp2 : p ∈ db ++ [(createPatient db payload fid t).1] := hp
      simp only [opValid, Bool.and_eq_true] at hop
      rcases List.mem_append.mp hp2 with h | h
      · exact hdb p h
      · have hpe : p = (createPatient db payload fid t).1 := by simpa using h
        subst hpe
        exact ⟨hop.1.1.2, hop.2⟩
    | update upd t =>
      have hcpf : ∀ s2, upd.cpf = some s2 → allDigits s2 = true := by
        intro s2 hs2
        simp only [opValid, hs2, Bool.and_eq_true] at hop
        exact hop.1.2
      have hph : ∀ s2, upd.phone_primary = some s2 → allDigits s2 = true := by
        intro s2 hs2
        simp only [opValid, hs2, Bool.and_eq_true] at hop
        exact hop.2.2
      intro p hp
      simp only [applyOp] at hp
      cases hu : updatePatient upd t db with
      | none =>
        rw [hu] at hp
        exact hdb p hp
      | some r =>
        obtain ⟨m, db'⟩ := r
        rw [hu] at hp
        rcases updatePatient_mem_cases upd t db db' m hu p hp with h | ⟨p0, hp0, he⟩
        · exact hdb p h
        · subst he
          obtain ⟨hc0, hph0⟩ := hdb p0 hp0
          constructor
          · show allDigits (upd.cpf.getD p0.cpf) = true
            cases hcp : upd.cpf with
            | none => simpa using hc0
            | some s2 => simpa using hcpf s2 hcp
          · show allDigits (upd.phone_primary.getD p0.phone_primary) = true
            cases hcp : upd.phone_primary with
            | none => simpa using hph0
            | some s2 => simpa using hph s2 hcp
    | delete i =>
      intro p hp
      simp only [applyOp, deletePatient] at hp
      exact hdb p (List.mem_filter.mp hp).1

/-- C8: in every store reachable from empty by operations whose payloads satisfy
the upstream validation contract (cpf is 11 digits, phone_primary is at least 10
digits, per FormSchema), every stored record's cpf and phone_primary consist of
decimal digits only; the repository itself never re-normalises. -/
theorem store_digits_invariant (ops : List Op)
    (h : ∀ op ∈ ops, opValid op = true) :
    ∀ p ∈ execOps ops, allDigits p.cpf = true ∧ allDigits p.phone_primary = true :=
  store_digits_aux ops [] h (by simp)

/-- Concrete instance: the record created by the scenario payload is digits-only. -/
theorem store_digits_invariant_witness :
    allDigits (createPatient [] payloadW "a" 1).1.cpf = true
    ∧ allDigits (createPatient [] payloadW "a" 1).1.phone_primary = true :=
  store_digits_invariant [Op.create payloadW "a" 1] (by decide)
    (createPatient [] payloadW "a" 1).1
    (by show (createPatient [] payloadW "a" 1).1 ∈ [(createPatient [] payloadW "a" 1).1]
        exact List.mem_cons_self _ _)

/-- Under a monotone clock every reachable store keeps created_at bounded by the
clock, updated_at bounded by the clock, and created_at at or before updated_at. -/
theorem chrono_aux :
    ∀ (ops : List Op) (db : List Patient) (t0 : Nat),
      timesMonoB t0 ops = true →
      (∀ p ∈ db, ∀ x ∈ p.created_at, x ≤ t0) →
      (∀ p ∈ db, ∀ x ∈ p.updated_at, x ≤ t0) →
      (∀ p ∈ db, ∀ c ∈ p.created_at, ∀ v ∈ p.updated_at, c ≤ v) →
      ∀ p ∈ ops.foldl applyOp db, ∀ c ∈ p.created_at, ∀ v ∈ p.updated_at, c ≤ v := by
  intro ops
  induction ops with
  | nil =>
    intro db t0 _ _ _ hinv
    simpa using hinv
  | cons op rest ih =>
    intro db t0 hmono hc hu hinv
    rw [List.foldl_cons]
    cases op with
    | create payload fid t =>
      simp only [timesMonoB, opTime, Bool.and_eq_true] at hmono
      obtain ⟨hble, hrest⟩ := hmono
      have ht0t : t0 ≤ t := Nat.ble_eq.mp hble
      have hsplit : ∀ p : Patient, p ∈ applyOp db (Op.create payload fid t) →
          p ∈ db ∨ p = (createPatient db payload fid t).1 := by
        intro p hp
        have hp2 : p ∈ db ++ [(createPatient db payload fid t).1] := hp
        rcases List.mem_append.mp hp2 with h | h
        · exact Or.inl h
        · exact Or.inr (by simpa using h)
      apply ih _ t hrest
      · intro p hp x hx
        rcases hsplit p hp with h | h
        · exact Nat.le_trans (hc p h x hx) ht0t
        · subst h
          have : t = x := by simpa [createPatient] using hx
          omega
      · intro p hp x hx
        rcases hsplit p hp with h | h
        · exact Nat.le_trans (hu p h x hx) ht0t
        · subst h
          have : t = x := by simpa [createPatient] using hx
          omega
      · intro p hp c hcx v hvx
        rcases hsplit p hp with h | h
        · exact hinv p h c hcx v hvx
        · subst h
          have h1 : t = c := by simpa [createPatient] using hcx
          have h2 : t = v := by simpa [createPatient] using hvx
          omega
    | update upd t =>
      simp only [timesMonoB, opTime, Bool.and_eq_true] at hmono
      obtain ⟨hble, hrest⟩ := hmono
      have ht0t : t0 ≤ t := Nat.ble_eq.mp hble
      have hsplit : ∀ p : Patient, p ∈ applyOp db (Op.update upd t) →
          p ∈ db ∨ ∃ p0 ∈ db, p = mergePatient p0 upd t := by
        intro p hp
        simp only [applyOp] at hp
        cases hu2 : updatePatient upd t db with
        | none =>
          rw [hu2] at hp
          exact Or.inl hp
        | some r =>
          obtain ⟨m, db'⟩ := r
          rw [hu2] at hp
          exact updatePatient_mem_cases upd t db db' m hu2 p hp
      apply ih _ t hrest
      · intro p hp x hx
        rcases hsplit p hp with h | ⟨p0, hp0, he⟩
        · exact Nat.le_trans (hc p h x hx) ht0t
        · subst he
          have hx0 : x ∈ p0.created_at := by simpa [mergePatient] using hx
          exact Nat.le_trans (hc p0 hp0 x hx0) ht0t
      · intro p hp x hx
        rcases hsplit p hp with h | ⟨p0, hp0, he⟩
        · exact Nat.le_trans (hu p h x hx) ht0t
        · subst he
          have : t = x := by simpa [mergePatient] using hx
          omega
      · intro p hp c hcx v hvx
        rcases hsplit p hp with h | ⟨p0, hp0, he⟩
        · exact hinv p h c hcx v hvx
        · subst he
          have h1 : c ∈ p0.created_at := by simpa [mergePatient] using hcx
          have h2 : t = v := by simpa [mergePatient] using hvx
          have := Nat.le_trans (hc p0 hp0 c h1) ht0t
          omega
    | delete i =>
      simp only [timesMonoB, opTime] at hmono
      have hsub : ∀ p : Patient, p ∈ applyOp db (Op.delete i) → p ∈ db := by
        intro p hp
        simp only [applyOp, deletePatient] at hp
        exact (List.mem_filter.mp hp).1
      exact ih _ t0 hmono (fun p hp => hc p (hsub p hp))
        (fun p hp => hu p (hsub p hp)) (fun p hp => hinv p (hsub p hp))

/-- C9: along any operation sequence run under a monotone clock, every stored
record satisfies created_at at or before updated_at; creation establishes the
invariant with equality. -/
theorem created_le_updated_spec (ops : List Op) (h : timesMonoB 0 ops = true) :
    (∀ p ∈ execOps ops, ∀ c ∈ p.created_at, ∀ v ∈ p.updated_at, c ≤ v)
    ∧ (∀ (db : List Patient) (payload : PatientInsert) (fid : String) (t : Nat),
        (createPatient db payload fid t).1.created_at
          = (createPatient db payload fid t).1.updated_at) := by
  refine ⟨?_, fun _ _ _ _ => rfl⟩
  exact chrono_aux ops [] 0 h (by simp) (by simp) (by simp)

/-- Concrete instance: a create at instant 1 followed by an update at instant 2
is a monotone-clock run, and creation stamps both timestamps equal. -/
theorem created_le_updated_spec_witness :
    (createPatient [] payloadW "a" 1).1.created_at
      = (createPatient [] payloadW "a" 1).1.updated_at :=
  (created_le_updated_spec [Op.create payloadW "a" 1, Op.update uX 2] (by decide)).2
    [] payloadW "a" 1

/-- Concrete instance of the zero-key fallback: a record with no created_at has
sort key 0. -/
theorem listPatients_sort_spec_witness :
    createdKey pN = 0 :=
  listPatients_sort_spec.2.2.2.1 pN rfl
